import Mathlib

/-!
Verification of the lighting subsystem of the three-d renderer
(src/renderer/light.rs): the light capability contract and its ownership
wrappers, the shader composer lights_shader_source, the lighting-model id
mapping, the Attenuation data model and the shadow-matrix / up-direction
helpers.

Modelling conventions:
* Rust String is Lean String; u32 indices are Nat (the indices involved are
  list positions, far below 2^32, and no wrap-around arithmetic occurs).
* f32 scalars are modelled as rationals; every constant appearing in the
  code (0.0, 0.5, 0.9, 1.0) is exactly representable and only exact
  arithmetic and comparisons on such constants are relied upon.
* a Rust panic is modelled as Option.none where a claim is about failure
  propagation.
-/

namespace ThreeD

/-- Modelled from the spec: the fixed shared preamble, the contents of the
embedded file core/shared.frag, which is not part of the excerpted sources.
The composer only ever prepends this fixed text, so its exact contents do not
affect any property proved here; a fixed placeholder stands in for it. -/
def shared_frag : String := "// core/shared.frag preamble\n"

/-- Modelled from the spec: the fixed shared light-interface fragment, the
contents of the embedded file light/shaders/light_shared.frag, which is not
part of the excerpted sources. A fixed placeholder stands in for it. -/
def light_shared_frag : String := "// light/shaders/light_shared.frag\n"

/-- A light object: the three operations of the Light trait
(src/renderer/light.rs, trait Light). The GPU program handle type and the
type of the GPU side effect performed by use_uniforms are external to the
excerpt, so they are type parameters P and E; shader_source is a pure
String-returning function of the slot index, exactly as in the Rust trait. -/
structure LightObj (P E : Type) where
  shader_source : Nat → String
  use_uniforms : P → Nat → E
  id : Nat

/-- The accumulation statement pushed onto dir_fun for index i in the loop of
lights_shader_source (light.rs line 143). -/
def accum_statement (i : Nat) : String :=
  "color += calculate_lighting" ++ toString i
    ++ "(surface_color, position, normal, view_direction, metallic, roughness, occlusion);\n"

/-- The synthesized dispatch function appended at the end of
lights_shader_source (light.rs lines 145-156), with the dir_fun accumulation
block spliced into the body. Whitespace reproduces the Rust format string
byte for byte. -/
def dispatch_function (dir_fun : String) : String :=
  "\n            vec3 calculate_lighting(vec3 camera_position, vec3 surface_color, vec3 position, vec3 normal, float metallic, float roughness, float occlusion)\n            \x7b\n                vec3 color = vec3(0.0, 0.0, 0.0);\n                vec3 view_direction = normalize(camera_position - position);\n                "
    ++ dir_fun
    ++ "\n                return color;\n            \x7d\n            "

/-- One iteration of the composition loop (light.rs lines 141-144): the pair
accumulator holds (shader_source, dir_fun) and the loop appends the light's
fragment to the first component and the accumulation statement to the
second. -/
def compose_step {P E : Type} (acc : String × String) (il : Nat × LightObj P E) :
    String × String :=
  (acc.1 ++ il.2.shader_source il.1, acc.2 ++ accum_statement il.1)

/-- lights_shader_source (light.rs lines 137-158): start from the two shared
fragments, run the enumerated loop accumulating per-light fragments and
dispatch statements, then append the synthesized dispatch function. -/
def lights_shader_source {P E : Type} (lights : List (LightObj P E)) : String :=
  let r := lights.enum.foldl compose_step (shared_frag ++ light_shared_frag, "")
  r.1 ++ dispatch_function r.2

/-- Concatenation of a list of strings, used to state the structural
decomposition of the composer's output. -/
def strJoin : List String → String
  | [] => ""
  | s :: rest => s ++ strJoin rest

lemma compose_fold_eq {P E : Type} :
    ∀ (ls : List (LightObj P E)) (k : Nat) (s d : String),
      (ls.enumFrom k).foldl compose_step (s, d)
        = (s ++ strJoin ((ls.enumFrom k).map fun il => il.2.shader_source il.1),
           d ++ strJoin ((ls.enumFrom k).map fun il => accum_statement il.1))
  | [], k, s, d => by
      simp [List.enumFrom, strJoin, String.append_empty]
  | a :: t, k, s, d => by
      have ih := compose_fold_eq t (k + 1) (s ++ a.shader_source k) (d ++ accum_statement k)
      simp only [List.enumFrom, List.foldl, compose_step, List.map, strJoin] at ih ⊢
      rw [ih, String.append_assoc, String.append_assoc]

lemma lights_shader_source_decomp {P E : Type} (lights : List (LightObj P E)) :
    lights_shader_source lights
      = shared_frag ++ light_shared_frag
          ++ strJoin (lights.enum.map fun il => il.2.shader_source il.1)
          ++ dispatch_function (strJoin ((List.range lights.length).map accum_statement)) := by
  have hrange : (lights.enum.map fun il => accum_statement il.1)
      = (List.range lights.length).map accum_statement := by
    have hc : (fun (il : Nat × LightObj P E) => accum_statement il.1)
        = accum_statement ∘ Prod.fst := rfl
    rw [hc, ← List.map_map, List.enum_map_fst]
  have henum : lights.enum = lights.enumFrom 0 := rfl
  have h := compose_fold_eq lights 0 (shared_frag ++ light_shared_frag) ""
  show ((lights.enum.foldl compose_step (shared_frag ++ light_shared_frag, "")).1
      ++ dispatch_function
          (lights.enum.foldl compose_step (shared_frag ++ light_shared_frag, "")).2) = _
  rw [henum, h]
  dsimp only
  rw [String.empty_append, ← henum, hrange, String.append_assoc]

/-- C1: for every light list of length N, lights_shader_source returns the
fixed shared preamble (shared.frag then light_shared.frag), followed by each
light's shader_source fragment at its own index in input order, followed by
the synthesized dispatch function whose body splices in exactly one
accumulation statement per index 0..N-1 in order; dispatch_function by
definition computes view_direction = normalize(camera_position - position),
initializes the accumulator to vec3(0.0, 0.0, 0.0) and returns it. The map
over List.range gives exactly N accumulation statements, in index order. -/
theorem lights_shader_source_spec {P E : Type} (lights : List (LightObj P E)) :
    lights_shader_source lights
      = shared_frag ++ light_shared_frag
          ++ strJoin (lights.enum.map fun il => il.2.shader_source il.1)
          ++ dispatch_function (strJoin ((List.range lights.length).map accum_statement))
      ∧ ((List.range lights.length).map accum_statement).length = lights.length := by
  refine ⟨lights_shader_source_decomp lights, ?_⟩
  simp

lemma map_enumFrom_congr {α β : Type} (f : Nat → α → String) (g : Nat → β → String) :
    ∀ (l1 : List α) (l2 : List β) (k : Nat), l1.length = l2.length →
      (∀ i (h1 : i < l1.length) (h2 : i < l2.length),
          f (k + i) (l1.get ⟨i, h1⟩) = g (k + i) (l2.get ⟨i, h2⟩)) →
      (l1.enumFrom k).map (fun il => f il.1 il.2) = (l2.enumFrom k).map (fun il => g il.1 il.2)
  | [], [], _, _, _ => rfl
  | [], _ :: _, _, h, _ => by simp at h
  | _ :: _, [], _, h, _ => by simp at h
  | a :: t1, b :: t2, k, hlen, hpt => by
      have h0 : f (k + 0) a = g (k + 0) b := hpt 0 (by simp) (by simp)
      have ih := map_enumFrom_congr f g t1 t2 (k + 1) (by simpa using hlen)
        (fun i h1 h2 => by
          have hs := hpt (i + 1) (by simpa using Nat.succ_lt_succ h1)
            (by simpa using Nat.succ_lt_succ h2)
          have hk : k + (i + 1) = (k + 1) + i := by omega
          rw [hk] at hs
          exact hs)
      simp only [List.enumFrom, List.map]
      rw [ih]
      simpa using h0

/-- C2: the output of lights_shader_source is a pure function of the ordered
sequence of the lights' own shader_source outputs: two light lists of equal
length whose elements return pointwise-equal fragments at equal indices give
byte-identical composed shader source. Determinism of a repeated call on the
same list is the reflexive instance of this statement; every operation in the
embedding is a pure function, mirroring the Rust code, which performs no
observable I/O or mutation of the lights. -/
theorem lights_shader_source_extensional {P1 E1 P2 E2 : Type}
    (L1 : List (LightObj P1 E1)) (L2 : List (LightObj P2 E2))
    (hlen : L1.length = L2.length)
    (hpt : ∀ i (h1 : i < L1.length) (h2 : i < L2.length),
        (L1.get ⟨i, h1⟩).shader_source i = (L2.get ⟨i, h2⟩).shader_source i) :
    lights_shader_source L1 = lights_shader_source L2 := by
  rw [lights_shader_source_decomp L1, lights_shader_source_decomp L2, hlen]
  have hmap : (L1.enum.map fun il => il.2.shader_source il.1)
      = (L2.enum.map fun il => il.2.shader_source il.1) := by
    have := map_enumFrom_congr (fun i l => LightObj.shader_source l i)
      (fun i l => LightObj.shader_source l i) L1 L2 0 hlen
      (fun i h1 h2 => by simpa using hpt i h1 h2)
    simpa using this
  rw [hmap]

/-- Witness for C2: two concrete singleton lists whose lights have the same
shader_source function but different use_uniforms and ids compose to the same
shader source. -/
theorem lights_shader_source_extensional_witness :
    lights_shader_source [(LightObj.mk (fun _ => "// fragment A\n") (fun p _ => p) 3
        : LightObj Nat Nat)]
      = lights_shader_source [(LightObj.mk (fun _ => "// fragment A\n") (fun p _ => p + 1) 5
        : LightObj Nat Nat)] :=
  lights_shader_source_extensional _ _ rfl
    (fun i h1 _ => by
      match i, h1 with
      | 0, _ => rfl)

/-- A 3-component vector with f32 components modelled as rationals
(cgmath Vector3, external library type used by light.rs). -/
structure Vec3 where
  x : ℚ
  y : ℚ
  z : ℚ
  deriving DecidableEq

/-- The cgmath vec3 constructor. -/
def vec3 (x y z : ℚ) : Vec3 := ⟨x, y, z⟩

/-- Componentwise vector addition (cgmath). -/
def Vec3.add (a b : Vec3) : Vec3 := ⟨a.x + b.x, a.y + b.y, a.z + b.z⟩

/-- The cgmath dot product. -/
def Vec3.dot (a b : Vec3) : ℚ := a.x * b.x + a.y * b.y + a.z * b.z

/-- The cgmath cross product. -/
def Vec3.cross (a b : Vec3) : Vec3 :=
  ⟨a.y * b.z - a.z * b.y, a.z * b.x - a.x * b.z, a.x * b.y - a.y * b.x⟩

/-- Semantic model of the generated calculate_lighting dispatch function: the
body initializes color to vec3(0.0, 0.0, 0.0), adds each spliced
calculate_lighting call's contribution (one function A → Vec3 per light,
applied to the fragment inputs A) in list order, and returns color. -/
def dispatch_sem {A : Type} (contribs : List (A → Vec3)) (args : A) : Vec3 :=
  (contribs.map fun f => f args).foldl Vec3.add (vec3 0 0 0)

/-- C5: the empty light list is accepted; the composed source is the shared
preamble followed directly by the dispatch function with an empty
accumulation block, whose body (by definition of dispatch_function)
initializes color to vec3(0.0, 0.0, 0.0) and immediately returns it; in the
dispatch semantics an empty contribution list yields the zero vector for any
fragment input. -/
theorem lights_shader_source_empty :
    (∀ (P E : Type), lights_shader_source ([] : List (LightObj P E))
        = shared_frag ++ light_shared_frag ++ dispatch_function "")
      ∧ (∀ (A : Type) (args : A), dispatch_sem ([] : List (A → Vec3)) args = vec3 0 0 0) :=
  ⟨fun _ _ => rfl, fun _ _ => rfl⟩

/-- Attenuation (light.rs lines 51-59): three public f32 factors, modelled as
rationals; the type carries no constraint on its fields. -/
structure Attenuation where
  constant : ℚ
  linear : ℚ
  quadratic : ℚ
  deriving DecidableEq

/-- Default for Attenuation (light.rs lines 61-69). -/
def Attenuation.default : Attenuation := ⟨1, 0, 0⟩

/-- Denominator of the intensity scale documented on Attenuation
(light.rs line 49): max(1, constant + distance * linear
+ distance * distance * quadratic). -/
def attenuation_denominator (a : Attenuation) (d : ℚ) : ℚ :=
  max 1 (a.constant + d * a.linear + d * d * a.quadratic)

/-- Intensity scale documented on Attenuation (light.rs line 49). -/
def attenuation_factor (a : Attenuation) (d : ℚ) : ℚ :=
  1 / attenuation_denominator a d

/-- Counterexample for C7: the claim says every Attenuation value satisfies
constant ≥ 0, but the fields are public and unconstrained, so the concrete
value with constant = -1 is constructible and violates the claimed
invariant. -/
theorem attenuation_invariant_counterexample :
    ¬ (0 ≤ (Attenuation.mk (-1) 0 0).constant) := by
  norm_num [Attenuation.mk]

/-- C7 (amended): the Attenuation type does not enforce constant ≥ 0, but the
documented denominator max(1, constant + d * linear + d * d * quadratic)
never falls below 1 for any attenuation value and any distance (by the outer
max), and the default Attenuation is {constant: 1, linear: 0, quadratic: 0},
meaning no falloff. -/
theorem attenuation_denominator_spec :
    (∀ (a : Attenuation) (d : ℚ), 1 ≤ attenuation_denominator a d)
      ∧ Attenuation.default = ⟨1, 0, 0⟩ :=
  ⟨fun _ _ => le_max_left 1 _, rfl⟩

/-- compute_up_direction (light.rs lines 167-173). The normalize operation is
cgmath library code external to this crate, so it is passed as a parameter;
the branch structure, the 0.9 threshold and the cross-product arguments are
exactly those of the source. -/
def compute_up_direction (normalize : Vec3 → Vec3) (direction : Vec3) : Vec3 :=
  if |(vec3 1 0 0).dot direction| > 9/10 then
    normalize ((vec3 0 1 0).cross direction)
  else
    normalize ((vec3 1 0 0).cross direction)

/-- C8: compute_up_direction returns the normalized cross product of world Y
with the direction exactly when |dot(worldX, direction)| > 0.9, and the
normalized cross product of world X with the direction otherwise; in
particular the world X axis takes the Y-cross branch and the world Y axis
takes the X-cross branch. -/
theorem compute_up_direction_spec (normalize : Vec3 → Vec3) (d : Vec3) :
    (|(vec3 1 0 0).dot d| > 9/10 →
        compute_up_direction normalize d = normalize ((vec3 0 1 0).cross d))
      ∧ (¬ (|(vec3 1 0 0).dot d| > 9/10) →
        compute_up_direction normalize d = normalize ((vec3 1 0 0).cross d))
      ∧ compute_up_direction normalize (vec3 1 0 0)
          = normalize ((vec3 0 1 0).cross (vec3 1 0 0))
      ∧ compute_up_direction normalize (vec3 0 1 0)
          = normalize ((vec3 1 0 0).cross (vec3 0 1 0)) := by
  refine ⟨fun h => by simp [compute_up_direction, h], fun h => by simp [compute_up_direction, h],
    ?_, ?_⟩
  · simp [compute_up_direction, Vec3.dot, vec3]
    norm_num
  · simp [compute_up_direction, Vec3.dot, vec3]
    norm_num

/-- Witness for C8: at the world X axis the hypothesis of the first branch
holds concretely and the Y-cross branch is taken; the identity function
stands in for the external normalize. -/
theorem compute_up_direction_spec_witness :
    compute_up_direction id (vec3 1 0 0) = id ((vec3 0 1 0).cross (vec3 1 0 0)) :=
  (compute_up_direction_spec id (vec3 1 0 0)).1 (by norm_num [Vec3.dot, vec3])

/-- Modelled from the spec: the normal-distribution choices of the
Cook-Torrance lighting model (the enum lives in renderer code outside this
excerpt; the spec lists exactly Blinn, Beckmann and TrowbridgeReitzGGX). -/
inductive NormalDistributionFunction where
  | Blinn
  | Beckmann
  | TrowbridgeReitzGGX
  deriving DecidableEq, Fintype

/-- Modelled from the spec: the geometry-function choices of the
Cook-Torrance lighting model (the spec lists exactly SmithSchlickGGX). -/
inductive GeometryFunction where
  | SmithSchlickGGX
  deriving DecidableEq, Fintype

/-- Modelled from the spec: the LightingModel enum selecting the analytic
BRDF - Phong, Blinn, or Cook(normal_distribution, geometry_function). -/
inductive LightingModel where
  | Phong
  | Blinn
  | Cook (ndf : NormalDistributionFunction) (gf : GeometryFunction)
  deriving DecidableEq, Fintype

/-- lighting_model_to_id (light.rs lines 176-193). The Rust match has no
wildcard arm: it is exhaustive over exactly the five values of the closed
enum (rejection of anything outside the set happens at the type level, not
by a runtime default). -/
def lighting_model_to_id : LightingModel → Nat
  | LightingModel.Phong => 1
  | LightingModel.Blinn => 2
  | LightingModel.Cook NormalDistributionFunction.Blinn
      GeometryFunction.SmithSchlickGGX => 3
  | LightingModel.Cook NormalDistributionFunction.Beckmann
      GeometryFunction.SmithSchlickGGX => 4
  | LightingModel.Cook NormalDistributionFunction.TrowbridgeReitzGGX
      GeometryFunction.SmithSchlickGGX => 5

/-- The five LightingModel values, in the order of the id table. -/
def lighting_model_values : List LightingModel :=
  [LightingModel.Phong, LightingModel.Blinn,
   LightingModel.Cook NormalDistributionFunction.Blinn GeometryFunction.SmithSchlickGGX,
   LightingModel.Cook NormalDistributionFunction.Beckmann GeometryFunction.SmithSchlickGGX,
   LightingModel.Cook NormalDistributionFunction.TrowbridgeReitzGGX
     GeometryFunction.SmithSchlickGGX]

/-- C3: lighting_model_to_id maps the five LightingModel values to 1, 2, 3,
4 and 5 in table order (so the five results are pairwise distinct and lie in
1..5), every value of the type satisfies 1 ≤ id ≤ 5, and the type is closed:
every LightingModel is one of the five listed values, so no value outside
the set exists to be mapped to a default (the Rust match is exhaustive
without a wildcard arm). -/
theorem lighting_model_to_id_spec :
    lighting_model_values.map lighting_model_to_id = [1, 2, 3, 4, 5]
      ∧ (lighting_model_values.map lighting_model_to_id).Nodup
      ∧ (∀ m : LightingModel,
          1 ≤ lighting_model_to_id m ∧ lighting_model_to_id m ≤ 5)
      ∧ (∀ m : LightingModel, m ∈ lighting_model_values) := by
  refine ⟨by decide, by decide, ?_, ?_⟩ <;> decide

/-- A 4-component vector with f32 components modelled as rationals
(cgmath Vector4, external library type). -/
structure Vec4 where
  x : ℚ
  y : ℚ
  z : ℚ
  w : ℚ
  deriving DecidableEq

/-- Componentwise addition on Vec4 (cgmath). -/
def Vec4.add (a b : Vec4) : Vec4 := ⟨a.x + b.x, a.y + b.y, a.z + b.z, a.w + b.w⟩

/-- Scalar multiplication on Vec4 (cgmath). -/
def Vec4.smul (q : ℚ) (v : Vec4) : Vec4 := ⟨q * v.x, q * v.y, q * v.z, q * v.w⟩

/-- A 4x4 matrix of f32, stored as its four columns (cgmath Matrix4,
external library type; Mat4 in light.rs is an alias for it). -/
structure Mat4 where
  x : Vec4
  y : Vec4
  z : Vec4
  w : Vec4
  deriving DecidableEq

/-- The cgmath Matrix4::new constructor: sixteen scalars in column-major
order, exactly the argument order used at light.rs lines 161-163. -/
def Mat4.new (c0x c0y c0z c0w c1x c1y c1z c1w c2x c2y c2z c2w c3x c3y c3z c3w : ℚ) :
    Mat4 :=
  ⟨⟨c0x, c0y, c0z, c0w⟩, ⟨c1x, c1y, c1z, c1w⟩, ⟨c2x, c2y, c2z, c2w⟩, ⟨c3x, c3y, c3z, c3w⟩⟩

/-- Matrix-vector product: the linear combination of the columns of m by the
components of v (cgmath). -/
def Mat4.mulVec (m : Mat4) (v : Vec4) : Vec4 :=
  Vec4.add (Vec4.add (Vec4.smul v.x m.x) (Vec4.smul v.y m.y))
    (Vec4.add (Vec4.smul v.z m.z) (Vec4.smul v.w m.w))

/-- Matrix product: each column of the result is a applied to the
corresponding column of b (cgmath). -/
def Mat4.mul (a b : Mat4) : Mat4 :=
  ⟨a.mulVec b.x, a.mulVec b.y, a.mulVec b.z, a.mulVec b.w⟩

/-- The 4x4 identity matrix. -/
def Mat4.identity : Mat4 := Mat4.new 1 0 0 0 0 1 0 0 0 0 1 0 0 0 0 1

/-- Modelled from the spec: the camera abstraction consumed by
shadow_matrix, exposing a projection matrix and a view matrix (the Camera
type lives outside this excerpt). -/
structure Camera where
  projection : Mat4
  view : Mat4

/-- The fixed bias matrix of shadow_matrix (light.rs lines 161-163): 0.5
scale on the x/y/z diagonal and 0.5 translation on x/y/z, identity on w. -/
def bias_matrix : Mat4 :=
  Mat4.new (1/2) 0 0 0 0 (1/2) 0 0 0 0 (1/2) 0 (1/2) (1/2) (1/2) 1

/-- shadow_matrix (light.rs lines 160-165): bias * projection * view,
left associated as in the Rust expression. -/
def shadow_matrix (camera : Camera) : Mat4 :=
  Mat4.mul (Mat4.mul bias_matrix camera.projection) camera.view

/-- C9: shadow_matrix(camera) is the product bias * camera.projection *
camera.view with the fixed bias matrix [[0.5,0,0,0],[0,0.5,0,0],[0,0,0.5,0],
[0.5,0.5,0.5,1]] (columns), and for identity projection and identity view it
returns exactly that bias matrix. -/
theorem shadow_matrix_spec :
    (∀ camera : Camera,
        shadow_matrix camera = Mat4.mul (Mat4.mul bias_matrix camera.projection) camera.view)
      ∧ shadow_matrix ⟨Mat4.identity, Mat4.identity⟩
          = Mat4.new (1/2) 0 0 0 0 (1/2) 0 0 0 0 (1/2) 0 (1/2) (1/2) (1/2) 1 := by
  refine ⟨fun _ => rfl, ?_⟩
  show Mat4.mul (Mat4.mul bias_matrix Mat4.identity) Mat4.identity = bias_matrix
  norm_num [Mat4.mul, Mat4.mulVec, Mat4.identity, Mat4.new, bias_matrix, Vec4.add, Vec4.smul,
    Mat4.mk.injEq, Vec4.mk.injEq]

/-- A shared reference &T: holds the referent; deref yields it. -/
structure RefW (α : Type) where
  value : α

/-- Deref of a shared reference. -/
def RefW.deref {α : Type} (r : RefW α) : α := r.value

/-- An exclusive reference &mut T: holds the referent; deref yields it. -/
structure MutRefW (α : Type) where
  value : α

/-- Deref of an exclusive reference. -/
def MutRefW.deref {α : Type} (r : MutRefW α) : α := r.value

/-- A Box<T>: holds the boxed value; as_ref yields it. -/
structure BoxW (α : Type) where
  value : α

/-- Box::as_ref. -/
def BoxW.as_ref {α : Type} (b : BoxW α) : α := b.value

/-- An Rc<T>: holds the shared value; as_ref yields it. -/
structure RcW (α : Type) where
  value : α

/-- Rc::as_ref. -/
def RcW.as_ref {α : Type} (r : RcW α) : α := r.value

/-- An Arc<T>: holds the shared value; as_ref yields it. -/
structure ArcW (α : Type) where
  value : α

/-- Arc::as_ref. -/
def ArcW.as_ref {α : Type} (a : ArcW α) : α := a.value

/-- A RefCell<T>: holds the cell contents; borrow yields them (for the
sequential single-call snapshot the borrow always succeeds). -/
structure RefCellW (α : Type) where
  value : α

/-- RefCell::borrow. -/
def RefCellW.borrow {α : Type} (c : RefCellW α) : α := c.value

/-- Light impl for &T (light.rs line 92, via the impl_light_body macro with
deref): each operation forwards to the referent. -/
def refLight {P E : Type} (w : RefW (LightObj P E)) : LightObj P E where
  shader_source i := w.deref.shader_source i
  use_uniforms p i := w.deref.use_uniforms p i
  id := w.deref.id

/-- Light impl for &mut T (light.rs line 96, macro with deref). -/
def mutRefLight {P E : Type} (w : MutRefW (LightObj P E)) : LightObj P E where
  shader_source i := w.deref.shader_source i
  use_uniforms p i := w.deref.use_uniforms p i
  id := w.deref.id

/-- Light impl for Box<T> (light.rs line 100, macro with as_ref). -/
def boxLight {P E : Type} (w : BoxW (LightObj P E)) : LightObj P E where
  shader_source i := w.as_ref.shader_source i
  use_uniforms p i := w.as_ref.use_uniforms p i
  id := w.as_ref.id

/-- Light impl for Rc<T> (light.rs line 104, macro with as_ref). -/
def rcLight {P E : Type} (w : RcW (LightObj P E)) : LightObj P E where
  shader_source i := w.as_ref.shader_source i
  use_uniforms p i := w.as_ref.use_uniforms p i
  id := w.as_ref.id

/-- Light impl for Arc<T> (light.rs line 108, macro with as_ref). -/
def arcLight {P E : Type} (w : ArcW (LightObj P E)) : LightObj P E where
  shader_source i := w.as_ref.shader_source i
  use_uniforms p i := w.as_ref.use_uniforms p i
  id := w.as_ref.id

/-- Light impl for RefCell<T> (light.rs line 112, macro with borrow). -/
def refCellLight {P E : Type} (w : RefCellW (LightObj P E)) : LightObj P E where
  shader_source i := w.borrow.shader_source i
  use_uniforms p i := w.borrow.use_uniforms p i
  id := w.borrow.id

/-- An RwLock<T>: the protected value together with the poison flag set when
a holder panicked. -/
structure RwLock (α : Type) where
  value : α
  poisoned : Bool

/-- RwLock::read: a LockResult that is an error exactly when the lock is
poisoned, otherwise a read guard on the value (the guard is modelled by the
snapshot it dereferences to). -/
def RwLock.read {α : Type} (l : RwLock α) : Except Unit α :=
  if l.poisoned then Except.error () else Except.ok l.value

/-- Result::unwrap with a panic modelled as none. -/
def unwrapOrPanic {α : Type} : Except Unit α → Option α
  | Except.ok a => some a
  | Except.error _ => none

/-- shader_source of the Light impl for Arc<RwLock<T>> (light.rs lines
117-119): self.read().unwrap().shader_source(i). The call acquires the read
lock itself; a panic (from unwrap on a poisoned lock) is modelled as
none. -/
def arcRwLockShaderSource {P E : Type} (w : ArcW (RwLock (LightObj P E))) (i : Nat) :
    Option String :=
  (unwrapOrPanic w.as_ref.read).map fun t => t.shader_source i

/-- use_uniforms of the Light impl for Arc<RwLock<T>> (light.rs lines
120-122): self.read().unwrap().use_uniforms(program, i). -/
def arcRwLockUseUniforms {P E : Type} (w : ArcW (RwLock (LightObj P E))) (p : P) (i : Nat) :
    Option E :=
  (unwrapOrPanic w.as_ref.read).map fun t => t.use_uniforms p i

/-- id of the Light impl for Arc<RwLock<T>> (light.rs lines 123-125):
self.read().unwrap().id(). -/
def arcRwLockId {P E : Type} (w : ArcW (RwLock (LightObj P E))) : Option Nat :=
  (unwrapOrPanic w.as_ref.read).map fun t => t.id

/-- C4: every ownership wrapper's Light impl forwards each of the three
operations to the wrapped light unchanged: for &T, &mut T, Box<T>, Rc<T>,
Arc<T> and RefCell<T> the results are literally equal, and for
Arc<RwLock<T>> with a healthy (unpoisoned) lock each operation returns
exactly the wrapped light's result. -/
theorem light_wrapper_forwarding {P E : Type} (t : LightObj P E) (p : P) (i : Nat) :
    (refLight ⟨t⟩).shader_source i = t.shader_source i
      ∧ (refLight ⟨t⟩).use_uniforms p i = t.use_uniforms p i
      ∧ (refLight ⟨t⟩).id = t.id
      ∧ (mutRefLight ⟨t⟩).shader_source i = t.shader_source i
      ∧ (mutRefLight ⟨t⟩).use_uniforms p i = t.use_uniforms p i
      ∧ (mutRefLight ⟨t⟩).id = t.id
      ∧ (boxLight ⟨t⟩).shader_source i = t.shader_source i
      ∧ (boxLight ⟨t⟩).use_uniforms p i = t.use_uniforms p i
      ∧ (boxLight ⟨t⟩).id = t.id
      ∧ (rcLight ⟨t⟩).shader_source i = t.shader_source i
      ∧ (rcLight ⟨t⟩).use_uniforms p i = t.use_uniforms p i
      ∧ (rcLight ⟨t⟩).id = t.id
      ∧ (arcLight ⟨t⟩).shader_source i = t.shader_source i
      ∧ (arcLight ⟨t⟩).use_uniforms p i = t.use_uniforms p i
      ∧ (arcLight ⟨t⟩).id = t.id
      ∧ (refCellLight ⟨t⟩).shader_source i = t.shader_source i
      ∧ (refCellLight ⟨t⟩).use_uniforms p i = t.use_uniforms p i
      ∧ (refCellLight ⟨t⟩).id = t.id
      ∧ arcRwLockShaderSource ⟨⟨t, false⟩⟩ i = some (t.shader_source i)
      ∧ arcRwLockUseUniforms ⟨⟨t, false⟩⟩ p i = some (t.use_uniforms p i)
      ∧ arcRwLockId ⟨⟨t, false⟩⟩ = some t.id := by
  repeat' constructor

/-- C10: each Light operation on Arc<RwLock<T>> goes through a read-lock
acquisition of its own (its result is exactly unwrap of RwLock::read mapped
through the inner operation, so one consistent snapshot is taken per call),
and when the lock is poisoned every operation panics (modelled as none)
rather than returning an error value; when it is healthy each operation
returns the inner light's result. -/
theorem arc_rwlock_light_spec {P E : Type} (t : LightObj P E) (b : Bool) (p : P) (i : Nat) :
    arcRwLockShaderSource ⟨⟨t, b⟩⟩ i
        = (unwrapOrPanic (RwLock.read ⟨t, b⟩)).map (fun l => l.shader_source i)
      ∧ arcRwLockUseUniforms ⟨⟨t, b⟩⟩ p i
          = (unwrapOrPanic (RwLock.read ⟨t, b⟩)).map (fun l => l.use_uniforms p i)
      ∧ arcRwLockId ⟨⟨t, b⟩⟩ = (unwrapOrPanic (RwLock.read ⟨t, b⟩)).map (fun l => l.id)
      ∧ arcRwLockShaderSource ⟨⟨t, true⟩⟩ i = none
      ∧ arcRwLockUseUniforms ⟨⟨t, true⟩⟩ p i = none
      ∧ arcRwLockId ⟨⟨t, true⟩⟩ = none
      ∧ arcRwLockShaderSource ⟨⟨t, false⟩⟩ i = some (t.shader_source i)
      ∧ arcRwLockUseUniforms ⟨⟨t, false⟩⟩ p i = some (t.use_uniforms p i)
      ∧ arcRwLockId ⟨⟨t, false⟩⟩ = some t.id := by
  refine ⟨rfl, rfl, rfl, ?_, ?_, ?_, rfl, rfl, rfl⟩ <;>
    simp [arcRwLockShaderSource, arcRwLockUseUniforms, arcRwLockId, ArcW.as_ref,
      RwLock.read, unwrapOrPanic]

/-- A light whose shader_source call may fail: the Rust trait method returns
String, so the only failure mode of a call is a panic, modelled as none.
use_uniforms and id are as in LightObj. -/
structure PLight (P E : Type) where
  shader_source : Nat → Option String
  use_uniforms : P → Nat → E
  id : Nat

/-- One iteration of the composition loop under the panic model: once a
failure has occurred the computation is aborted (none is absorbing), and a
fragment call that panics aborts it; otherwise the step appends exactly as
compose_step does. -/
def compose_step_panic {P E : Type} (acc : Option (String × String))
    (il : Nat × PLight P E) : Option (String × String) :=
  match acc with
  | none => none
  | some (s, d) =>
    match il.2.shader_source il.1 with
    | none => none
    | some frag => some (s ++ frag, d ++ accum_statement il.1)

/-- lights_shader_source under the panic model: the same composition as
lights_shader_source, but a panic in any light's shader_source call unwinds
out of the loop, so no string at all is produced (none). -/
def lights_shader_source_panic {P E : Type} (lights : List (PLight P E)) : Option String :=
  (lights.enum.foldl compose_step_panic (some (shared_frag ++ light_shared_frag, ""))).map
    fun r => r.1 ++ dispatch_function r.2

lemma panic_fold_none {P E : Type} :
    ∀ (ls : List (PLight P E)) (k : Nat),
      (ls.enumFrom k).foldl compose_step_panic none = none
  | [], _ => rfl
  | _ :: t, k => by
      simp only [List.enumFrom, List.foldl, compose_step_panic]
      exact panic_fold_none t (k + 1)

lemma panic_fold_fail {P E : Type} :
    ∀ (ls : List (PLight P E)) (k j : Nat) (hj : j < ls.length) (s d : String),
      (ls.get ⟨j, hj⟩).shader_source (k + j) = none →
      (ls.enumFrom k).foldl compose_step_panic (some (s, d)) = none
  | [], _, j, hj, _, _, _ => absurd hj (by simp)
  | a :: t, k, 0, _, s, d, hfail => by
      simp only [List.get, Nat.add_zero] at hfail
      simp only [List.enumFrom, List.foldl, compose_step_panic, hfail]
      exact panic_fold_none t (k + 1)
  | a :: t, k, j + 1, hj, s, d, hfail => by
      simp only [List.get] at hfail
      have hk : k + (j + 1) = (k + 1) + j := by omega
      rw [hk] at hfail
      simp only [List.enumFrom, List.foldl, compose_step_panic]
      cases h : a.shader_source k with
      | none => exact panic_fold_none t (k + 1)
      | some frag =>
          exact panic_fold_fail t (k + 1) j (by simpa using Nat.lt_of_succ_lt_succ hj)
            (s ++ frag) (d ++ accum_statement k) hfail

lemma panic_fold_some {P E : Type} :
    ∀ (lp : List (PLight P E)) (lt : List (LightObj P E)) (k : Nat) (s d : String),
      lp.length = lt.length →
      (∀ j (h1 : j < lp.length) (h2 : j < lt.length),
          (lp.get ⟨j, h1⟩).shader_source (k + j)
            = some ((lt.get ⟨j, h2⟩).shader_source (k + j))) →
      (lp.enumFrom k).foldl compose_step_panic (some (s, d))
        = some ((lt.enumFrom k).foldl compose_step (s, d))
  | [], [], _, _, _, _, _ => rfl
  | [], _ :: _, _, _, _, h, _ => by simp at h
  | _ :: _, [], _, _, _, h, _ => by simp at h
  | a :: tp, b :: tt, k, s, d, hlen, hpt => by
      have h0 : a.shader_source (k + 0) = some (b.shader_source (k + 0)) :=
        hpt 0 (by simp) (by simp)
      simp only [Nat.add_zero] at h0
      simp only [List.enumFrom, List.foldl, compose_step_panic, compose_step, h0]
      exact panic_fold_some tp tt (k + 1) (s ++ b.shader_source k) (d ++ accum_statement k)
        (by simpa using hlen)
        (fun j h1 h2 => by
          have hs := hpt (j + 1) (by simpa using Nat.succ_lt_succ h1)
            (by simpa using Nat.succ_lt_succ h2)
          have hk : k + (j + 1) = (k + 1) + j := by omega
          rw [hk] at hs
          exact hs)

/-- C6: under the panic model of failure (the trait method returns String, so
a failing shader_source call is a panic that unwinds out of the composition
loop), a failure of any light's shader_source call at its index makes
lights_shader_source fail as a whole, returning no string at all rather than
a partially assembled one; and when every light's call succeeds, the result
is exactly the complete composed string of the corresponding non-failing
lights. -/
theorem lights_shader_source_panic_spec :
    (∀ (P E : Type) (L : List (PLight P E)) (j : Nat) (hj : j < L.length),
        (L.get ⟨j, hj⟩).shader_source j = none → lights_shader_source_panic L = none)
      ∧ (∀ (P E : Type) (Lp : List (PLight P E)) (Lt : List (LightObj P E)),
          Lp.length = Lt.length →
          (∀ j (h1 : j < Lp.length) (h2 : j < Lt.length),
              (Lp.get ⟨j, h1⟩).shader_source j = some ((Lt.get ⟨j, h2⟩).shader_source j)) →
          lights_shader_source_panic Lp = some (lights_shader_source Lt)) := by
  constructor
  · intro P E L j hj hfail
    have h := panic_fold_fail L 0 j hj (shared_frag ++ light_shared_frag) ""
      (by simpa using hfail)
    simp only [lights_shader_source_panic]
    rw [show L.enum = L.enumFrom 0 from rfl, h]
    rfl
  · intro P E Lp Lt hlen hpt
    have h := panic_fold_some Lp Lt 0 (shared_frag ++ light_shared_frag) "" hlen
      (fun j h1 h2 => by simpa using hpt j h1 h2)
    simp only [lights_shader_source_panic]
    rw [show Lp.enum = Lp.enumFrom 0 from rfl, h]
    rfl

/-- Witness for C6: a singleton list whose light panics composes to none,
and a singleton list whose light returns a fragment composes to exactly the
total composition of the corresponding ordinary light. -/
theorem lights_shader_source_panic_spec_witness :
    lights_shader_source_panic
        [(PLight.mk (fun _ => none) (fun p _ => p) 3 : PLight Nat Nat)] = none
      ∧ lights_shader_source_panic
          [(PLight.mk (fun _ => some "// fragment A\n") (fun p _ => p) 3 : PLight Nat Nat)]
        = some (lights_shader_source
            [(LightObj.mk (fun _ => "// fragment A\n") (fun p _ => p) 3 : LightObj Nat Nat)]) :=
  ⟨lights_shader_source_panic_spec.1 Nat Nat _ 0 (by simp) rfl,
   lights_shader_source_panic_spec.2 Nat Nat _ _ rfl
     (fun j h1 _ => by
       match j, h1 with
       | 0, _ => rfl)⟩

end ThreeD
